import Mathlib

/-!
Formal model of the Digital Bookshelf server (`server.js`, the durable
JWT-backed variant): JS string operations, the token service
(`jwt.sign` / `jwt.verify` with the 7-day `expiresIn`), the password
hasher (`bcryptjs`, modeled as an idealized salted one-way function),
the user store (MongoDB via mongoose, modeled as a list of `User`
records with the schema's unique indexes, `trim` / `lowercase` setters,
and array-path casting), the auth middleware `authenticateToken`, and
the route handlers for `/api/register`, `/api/login`, `/api/books`
(GET and PUT) and `/api/verify`.

JS strings are modeled as `List Char`; JS falsiness of a possibly
absent string field is `none` or the empty string.  Clock times are in
seconds (the unit of JWT `exp`).  Store-generated bookkeeping that no
route inspects (`_id` of embedded book subdocuments, the `Date.now`
default for `dateAdded`, `createdAt`/`updatedAt`) is not modeled.
-/

namespace Bookshelf

/-- JS strings, modeled as lists of characters. -/
abbrev JStr := List Char

/-- Embed a Lean string literal as a JS string. -/
def js (s : String) : JStr := s.toList

/-- Auxiliary for `splitOnChar`: returns the segment before the first
separator together with the remaining segments. -/
def splitOnCharAux (c : Char) : JStr → JStr × List JStr
  | [] => ([], [])
  | x :: xs =>
    match splitOnCharAux c xs with
    | (h, t) => if x = c then ([], h :: t) else (x :: h, t)

/-- JS `String.prototype.split` with a single-character separator:
`"a b".split(' ') = ["a","b"]`, `"a".split(' ') = ["a"]`,
`"a ".split(' ') = ["a",""]`. -/
def splitOnChar (c : Char) (l : JStr) : List JStr :=
  (splitOnCharAux c l).1 :: (splitOnCharAux c l).2

/-- JS `String.prototype.trim`: strip surrounding whitespace. -/
def trimJ (l : JStr) : JStr :=
  ((l.dropWhile Char.isWhitespace).reverse.dropWhile Char.isWhitespace).reverse

/-- JS `String.prototype.toLowerCase`. -/
def lowerJ (l : JStr) : JStr := l.map Char.toLower

/-- JS falsiness of a possibly-absent string field (`undefined` or `""`). -/
def falsy : Option JStr → Bool
  | none => true
  | some s => s.isEmpty

/-- The character for a decimal digit. -/
def digitToChar (d : Nat) : Char := Char.ofNat (48 + d)

/-- Decode a decimal digit character. -/
def charToDigitOpt (c : Char) : Option Nat :=
  if '0' ≤ c ∧ c ≤ '9' then some (c.toNat - 48) else none

/-- Whether a character is a decimal digit. -/
def isDigitChar (c : Char) : Bool := (charToDigitOpt c).isSome

/-- Decode a decimal digit character, defaulting to 0. -/
def charToDigitD (c : Char) : Nat := (charToDigitOpt c).getD 0

/-- Decimal digits of `n`, least significant first; `fuel` bounds the
recursion (any `fuel ≥ n` is enough). -/
def toDigitsRev : Nat → Nat → List Nat
  | 0, _ => []
  | fuel + 1, n => if n = 0 then [] else n % 10 :: toDigitsRev fuel (n / 10)

/-- Decimal notation for a natural number. -/
def encNat (n : Nat) : JStr :=
  if n = 0 then ['0'] else ((toDigitsRev n n).map digitToChar).reverse

/-- Accumulate a decimal number from its digit characters. -/
def decNatCore (l : JStr) : Nat := l.foldl (fun a c => 10 * a + charToDigitD c) 0

/-- Parse a nonempty all-digit string as a natural number. -/
def decNat (l : JStr) : Option Nat :=
  if !l.isEmpty && l.all isDigitChar then some (decNatCore l) else none

/-- 7 days in seconds: the `expiresIn: '7d'` lifetime used by both
token-issuing routes. -/
def sevenDays : Nat := 604800

/-- Model of `jwt.sign({ userId }, secret, { expiresIn: '7d' })` at time
`now`: a signed string embedding the user id, the expiration instant
`now + 7d`, and (as the model of the signature) the signing secret. -/
def jwtSign (uid : Nat) (secret : JStr) (now : Nat) : JStr :=
  encNat uid ++ '.' :: (encNat (now + sevenDays) ++ '.' :: secret)

/-- Model of `jwt.verify(token, secret)` evaluated at time `now`:
returns the embedded user id when the token is well formed, its
signature matches the secret, and it is not yet expired (`jsonwebtoken`
rejects exactly when `now ≥ exp`); returns `none` (the thrown error,
malformed / wrong signature / expired alike) otherwise. -/
def jwtVerify (tok secret : JStr) (now : Nat) : Option Nat :=
  match splitOnChar '.' tok with
  | [uidS, expS, sig] =>
    match decNat uidS, decNat expS with
    | some uid, some exp => if sig == secret ∧ now < exp then some uid else none
    | _, _ => none
  | _ => none

/-- Model of `bcrypt.hash(pw, 10)`: an idealized collision-free salted
one-way function; the digest records the cost, the per-call random salt
and the password. -/
def bcryptHash (pw : JStr) (cost salt : Nat) : JStr :=
  '$' :: '2' :: '$' :: (encNat cost ++ '$' :: (encNat salt ++ '$' :: pw))

/-- Extract the password recorded in a model digest, if well formed. -/
def hashStored (digest : JStr) : Option JStr :=
  match digest with
  | '$' :: '2' :: '$' :: rest =>
    match rest.dropWhile isDigitChar with
    | '$' :: rest2 =>
      match rest2.dropWhile isDigitChar with
      | '$' :: stored => some stored
      | _ => none
    | _ => none
  | _ => none

/-- Model of `bcrypt.compare(pw, digest)`: true iff the digest is well
formed and was produced from `pw`; false (never throwing) on a
malformed digest. -/
def bcryptCompare (pw digest : JStr) : Bool :=
  match hashStored digest with
  | some stored => stored == pw
  | none => false

/-- An embedded book subdocument, after the schema cast: every declared
field (`title`, `author`, `genre`, `pages`, `currentPage`, `notes`,
`progress`, `color`, `dateAdded`) is optional. -/
structure BookEntry where
  title : Option JStr
  author : Option JStr
  genre : Option JStr
  pages : Option Nat
  currentPage : Option Nat
  notes : Option JStr
  progress : Option Nat
  color : Option JStr
  dateAdded : Option Nat
deriving Repr, DecidableEq

/-- The `books` structure of a user: the three named sequences of the
schema. -/
structure Books where
  read : List BookEntry
  unread : List BookEntry
  wishlist : List BookEntry
deriving Repr, DecidableEq

/-- A persisted `User` document.  `username` is stored trimmed, `email`
trimmed and lower-cased (the schema's setters); `password` holds the
bcrypt digest. -/
structure User where
  id : Nat
  username : JStr
  email : JStr
  password : JStr
  books : Books
deriving Repr, DecidableEq

/-- Model of `User.findById`. -/
def findById (store : List User) (uid : Nat) : Option User :=
  store.find? (fun u => u.id == uid)

/-- JSON values appearing in request and response bodies. -/
inductive JVal where
  | s (v : JStr)
  | n (v : Nat)
  | arr (xs : List JVal)
  | obj (fields : List (String × JVal))

/-- An HTTP response: status code and JSON body. -/
structure Response where
  status : Nat
  body : JVal

/-- The uniform error body `{ error: msg }`. -/
def errJ (msg : String) : JVal := .obj [("error", .s (js msg))]

/-- The public-safe user projection `{ id, username, email }` returned
by the register, login and verify routes. -/
def pubUserJson (u : User) : JVal :=
  .obj [("id", .n u.id), ("username", .s u.username), ("email", .s u.email)]

/-- Result of the auth middleware: short-circuit with an error response,
or attach the resolved user and continue to the protected handler. -/
inductive GateResult where
  | reject (status : Nat) (body : JVal)
  | allow (u : User)

/-- The token extracted from the `Authorization` header by
`authHeader && authHeader.split(' ')[1]`, with `none` for every falsy
outcome (`!token`): absent or empty header, no second space-separated
segment, or an empty second segment. -/
def tokenOf (authHeader : Option JStr) : Option JStr :=
  match authHeader with
  | none => none
  | some h =>
    if h.isEmpty then none
    else
      match (splitOnChar ' ' h).get? 1 with
      | none => none
      | some t => if t.isEmpty then none else some t

/-- The auth middleware `authenticateToken`: extract the token (401 if
missing), verify it (403 on any verification failure), resolve the
embedded user id against the store (403 if no such user), else attach
the resolved user. -/
def authenticateToken (store : List User) (secret : JStr) (now : Nat)
    (authHeader : Option JStr) : GateResult :=
  match tokenOf authHeader with
  | none => .reject 401 (errJ "Access token required")
  | some t =>
    match jwtVerify t secret now with
    | none => .reject 403 (errJ "Invalid or expired token")
    | some uid =>
      match findById store uid with
      | none => .reject 403 (errJ "User not found")
      | some u => .allow u

/-- The four-part email shape test `/^[^\s@]+@[^\s@]+\.[^\s@]+$/`:
the domain part matches `[^\s@]+\.[^\s@]+` iff it has a dot that is
neither its first nor its last character. -/
def hasInteriorDot (l : JStr) : Bool :=
  match l with
  | [] => false
  | _ :: rest => rest.dropLast.contains '.'

/-- No whitespace character (the regex class `\s`). -/
def noWs (l : JStr) : Bool := l.all (fun c => !c.isWhitespace)

/-- Model of `isValidEmail`: the regex `/^[^\s@]+@[^\s@]+\.[^\s@]+$/`
holds iff the string splits at a single `@` into a nonempty
whitespace-free local part and a whitespace-free domain with an
interior dot. -/
def isValidEmail (e : JStr) : Bool :=
  match splitOnChar '@' e with
  | [lp, dom] => !lp.isEmpty && noWs lp && noWs dom && hasInteriorDot dom
  | _ => false

/-- Query value cast for a `username` filter (the schema's `trim`
setter, applied to query filters). -/
def qUser (x : JStr) : JStr := trimJ x

/-- Query value cast for an `email` filter (the schema's `trim` and
`lowercase` setters, applied to query filters). -/
def qEmail (x : JStr) : JStr := lowerJ (trimJ x)

/-- The register route's duplicate pre-check
`User.findOne({ $or: [{ email }, { username }] })`. -/
def findPre (store : List User) (email username : JStr) : Option User :=
  store.find? (fun u => u.email == qEmail email || u.username == qUser username)

/-- The login route's lookup
`User.findOne({ $or: [{ username: x }, { email: x }] })`. -/
def findLogin (store : List User) (idf : JStr) : Option User :=
  store.find? (fun u => u.username == qUser idf || u.email == qEmail idf)

/-- Outcome of `user.save()` against the store's unique indexes on
`username` and `email` (in schema declaration order): a duplicate-key
error (MongoDB code 11000) naming the violated index's field, or the
extended store. -/
inductive InsertResult where
  | dup (field : String)
  | ok (store : List User)

/-- Insert a new user, enforcing the unique indexes. -/
def insertUser (store : List User) (u : User) : InsertResult :=
  if store.any (fun v => v.username == u.username) then .dup "username"
  else if store.any (fun v => v.email == u.email) then .dup "email"
  else .ok (store ++ [u])

/-- The user document built by `new User({ username, email, password:
hashedPassword, books: { read: [], unread: [], wishlist: [] } })`: the
schema setters trim the username and trim and lower-case the email. -/
def newUserOf (un em pw : JStr) (salt newId : Nat) : User :=
  { id := newId
    username := trimJ un
    email := lowerJ (trimJ em)
    password := bcryptHash pw 10 salt
    books := ⟨[], [], []⟩ }

/-- The post-validation tail of `POST /api/register`: hash the password,
build the new user (schema setters applied, empty book collections),
save it, and on success issue a token and return the 201 payload; a
store-level duplicate-key error is translated to the 400
`` `${field} already exists` `` response. -/
def registerInsert (insertStore : List User) (un em pw : JStr)
    (salt newId : Nat) (secret : JStr) (now : Nat) : Response × List User :=
  let newUser : User := newUserOf un em pw salt newId
  match insertUser insertStore newUser with
  | .dup f => (⟨400, errJ (f ++ " already exists")⟩, insertStore)
  | .ok store2 =>
    (⟨201, .obj [("message", .s (js "User created successfully")),
                 ("token", .s (jwtSign newId secret now)),
                 ("user", pubUserJson newUser)]⟩, store2)

/-- `POST /api/register`.  `checkStore` is the store state seen by the
duplicate pre-check and `insertStore` the state at `user.save()`; they
coincide except when a concurrent registration lands between the two
(the race the `error.code === 11000` handler catches).  `salt` is the
hasher's random salt, `newId` the store-generated id.  Returns the
response and the resulting store. -/
def register (checkStore insertStore : List User)
    (username email password : Option JStr)
    (salt newId : Nat) (secret : JStr) (now : Nat) : Response × List User :=
  if falsy username || falsy email || falsy password then
    (⟨400, errJ "All fields are required"⟩, insertStore)
  else
    let un := username.getD []
    let em := email.getD []
    let pw := password.getD []
    if un.length < 3 then
      (⟨400, errJ "Username must be at least 3 characters"⟩, insertStore)
    else if !isValidEmail em then
      (⟨400, errJ "Please enter a valid email address"⟩, insertStore)
    else if pw.length < 6 then
      (⟨400, errJ "Password must be at least 6 characters"⟩, insertStore)
    else
      match findPre checkStore em un with
      | some w =>
        if w.email == em then (⟨400, errJ "Email already exists"⟩, insertStore)
        else if w.username == un then (⟨400, errJ "Username already exists"⟩, insertStore)
        else
          registerInsert insertStore un em pw salt newId secret now
      | none =>
        registerInsert insertStore un em pw salt newId secret now

/-- `POST /api/login`. -/
def login (store : List User) (usernameOrEmail password : Option JStr)
    (secret : JStr) (now : Nat) : Response :=
  if falsy usernameOrEmail || falsy password then
    ⟨400, errJ "Username/email and password are required"⟩
  else
    let idf := usernameOrEmail.getD []
    let pw := password.getD []
    match findLogin store idf with
    | none => ⟨400, errJ "Invalid credentials"⟩
    | some u =>
      if !bcryptCompare pw u.password then ⟨400, errJ "Invalid credentials"⟩
      else
        ⟨200, .obj [("message", .s (js "Login successful")),
                    ("token", .s (jwtSign u.id secret now)),
                    ("user", pubUserJson u)]⟩

/-- `GET /api/verify` (after the auth middleware resolved `u`). -/
def verifyEndpoint (u : User) : Response :=
  ⟨200, .obj [("user", pubUserJson u)]⟩

/-- Field lookup in a JSON object. -/
def lookupField (fs : List (String × JVal)) (k : String) : Option JVal :=
  match fs.find? (fun p => p.1 == k) with
  | none => none
  | some p => some p.2

/-- Cast a looked-up value to an optional string field: absent fields
are fine, a JSON string is kept, anything else is a cast error. -/
def castStrOf : Option JVal → Option (Option JStr)
  | none => some none
  | some (.s v) => some (some v)
  | some _ => none

/-- Cast a looked-up value to an optional numeric field. -/
def castNatOf : Option JVal → Option (Option Nat)
  | none => some none
  | some (.n v) => some (some v)
  | some _ => none

/-- Cast one declared string field of a book subdocument. -/
def castStrField (fs : List (String × JVal)) (k : String) : Option (Option JStr) :=
  castStrOf (lookupField fs k)

/-- Cast one declared numeric field of a book subdocument. -/
def castNatField (fs : List (String × JVal)) (k : String) : Option (Option Nat) :=
  castNatOf (lookupField fs k)

/-- Cast a JSON value to a book subdocument per the schema: it must be
an object; undeclared keys are stripped (mongoose strict mode), each
declared key if present must have the declared type. -/
def castEntry (j : JVal) : Option BookEntry :=
  match j with
  | .obj fs =>
    match castStrField fs "title", castStrField fs "author", castStrField fs "genre",
          castNatField fs "pages", castNatField fs "currentPage",
          castStrField fs "notes", castNatField fs "progress",
          castStrField fs "color", castNatField fs "dateAdded" with
    | some t, some a, some g, some p, some cp, some no, some pr, some co, some d =>
      some ⟨t, a, g, p, cp, no, pr, co, d⟩
    | _, _, _, _, _, _, _, _, _ => none
  | _ => none

/-- Cast each element of a book sequence, failing if any element does. -/
def castEntries : List JVal → Option (List BookEntry)
  | [] => some []
  | x :: xs =>
    match castEntry x, castEntries xs with
    | some e, some es => some (e :: es)
    | _, _ => none

/-- Cast a JSON value to one of the three book sequences. -/
def castEntryList (j : JVal) : Option (List BookEntry) :=
  match j with
  | .arr xs => castEntries xs
  | _ => none

/-- Cast one of the three array paths of `books`: a sequence absent
from the update is absent from the stored document, and the schema's
array paths hydrate to the empty sequence when read back. -/
def castArrField (fs : List (String × JVal)) (k : String) : Option (List BookEntry) :=
  match lookupField fs k with
  | none => some []
  | some v => castEntryList v

/-- Cast the `books` value of a `PUT /api/books` body per the schema
(`$set` casting): any failure is the `CastError` that the handler's
`catch` turns into a 500. -/
def castBooks (j : JVal) : Option Books :=
  match j with
  | .obj fs =>
    match castArrField fs "read", castArrField fs "unread", castArrField fs "wishlist" with
    | some r, some u, some w => some ⟨r, u, w⟩
    | _, _, _ => none
  | _ => none

/-- Model of `User.findByIdAndUpdate(uid, { books })`. -/
def updateBooks (store : List User) (uid : Nat) (B : Books) : List User :=
  store.map (fun u => if u.id == uid then { u with books := B } else u)

/-- `PUT /api/books` (after the auth middleware): the body's `books`
field must be truthy and of JS type `object` (arrays included), then
the cast value replaces the user's whole collection. -/
def putBooks (store : List User) (uid : Nat) (body : Option JVal) :
    Response × List User :=
  match body with
  | none => (⟨400, errJ "Invalid books data"⟩, store)
  | some b =>
    match b with
    | .s _ => (⟨400, errJ "Invalid books data"⟩, store)
    | .n _ => (⟨400, errJ "Invalid books data"⟩, store)
    | _ =>
      match castBooks b with
      | none => (⟨500, errJ "Error updating books"⟩, store)
      | some B =>
        (⟨200, .obj [("message", .s (js "Books updated successfully"))]⟩,
         updateBooks store uid B)

/-- Build an object field list from an optional value. -/
def optField (k : String) (o : Option JVal) : List (String × JVal) :=
  match o with
  | none => []
  | some v => [(k, v)]

/-- JSON serialization of a stored book subdocument (present fields
only). -/
def entryJson (e : BookEntry) : JVal :=
  .obj (optField "title" (e.title.map .s) ++
        (optField "author" (e.author.map .s) ++
         (optField "genre" (e.genre.map .s) ++
          (optField "pages" (e.pages.map .n) ++
           (optField "currentPage" (e.currentPage.map .n) ++
            (optField "notes" (e.notes.map .s) ++
             (optField "progress" (e.progress.map .n) ++
              (optField "color" (e.color.map .s) ++
               optField "dateAdded" (e.dateAdded.map .n)))))))))

/-- JSON serialization of a `books` structure, as returned by
`GET /api/books`. -/
def booksJson (B : Books) : JVal :=
  .obj [("read", .arr (B.read.map entryJson)),
        ("unread", .arr (B.unread.map entryJson)),
        ("wishlist", .arr (B.wishlist.map entryJson))]

/-- `GET /api/books` (after the auth middleware); a vanished user makes
`user.books` throw, which the handler's `catch` turns into a 500. -/
def getBooks (store : List User) (uid : Nat) : Response :=
  match findById store uid with
  | none => ⟨500, errJ "Error fetching books"⟩
  | some u => ⟨200, booksJson u.books⟩

/-- No object key `"password"` occurs anywhere in a JSON value. -/
def pwFree : JVal → Bool
  | .s _ => true
  | .n _ => true
  | .arr [] => true
  | .arr (x :: xs) => pwFree x && pwFree (.arr xs)
  | .obj [] => true
  | .obj ((k, v) :: fs) => (k != "password") && pwFree v && pwFree (.obj fs)

/-- A JSON value is exactly the three named book sequences. -/
def threeSeqs (j : JVal) : Bool :=
  match j with
  | .obj [(k1, .arr _), (k2, .arr _), (k3, .arr _)] =>
    k1 == "read" && k2 == "unread" && k3 == "wishlist"
  | _ => false

/-- A concrete signing secret, for instantiating the theorems. -/
def demoSecret : JStr := js "topsecret"

/-- A concrete stored user, for instantiating the theorems. -/
def demoUser : User :=
  { id := 1
    username := js "alice"
    email := js "alice@example.com"
    password := bcryptHash (js "secret1") 10 5
    books := ⟨[], [], []⟩ }

/-- A one-user store, for instantiating the theorems. -/
def demoStore : List User := [demoUser]

/-- A concrete book subdocument, for instantiating the theorems. -/
def demoEntry : BookEntry :=
  { title := some (js "Dune")
    author := some (js "Frank Herbert")
    genre := some (js "Science Fiction")
    pages := some 412
    currentPage := some 0
    notes := none
    progress := some 0
    color := some (js "blue")
    dateAdded := some 0 }

/-- A concrete books collection with one wishlist entry, for
instantiating the theorems. -/
def demoBooks : Books := ⟨[], [], [demoEntry]⟩

end Bookshelf

namespace Bookshelf

theorem splitOnCharAux_of_not_mem (c : Char) (l : JStr) (h : c ∉ l) :
    splitOnCharAux c l = (l, []) := by
  induction l with
  | nil => rfl
  | cons x xs ih =>
    simp only [List.mem_cons, not_or] at h
    simp [splitOnCharAux, ih h.2, Ne.symm h.1]

theorem splitOnChar_of_not_mem (c : Char) (l : JStr) (h : c ∉ l) :
    splitOnChar c l = [l] := by
  simp [splitOnChar, splitOnCharAux_of_not_mem c l h]

theorem splitOnCharAux_append (c : Char) (w t : JStr) (h : c ∉ w) :
    splitOnCharAux c (w ++ c :: t) =
      (w, (splitOnCharAux c t).1 :: (splitOnCharAux c t).2) := by
  induction w with
  | nil => simp [splitOnCharAux]
  | cons x xs ih =>
    simp only [List.mem_cons, not_or] at h
    simp [splitOnCharAux, ih h.2, Ne.symm h.1]

theorem splitOnChar_append (c : Char) (w t : JStr) (h : c ∉ w) :
    splitOnChar c (w ++ c :: t) = w :: splitOnChar c t := by
  simp [splitOnChar, splitOnCharAux_append c w t h]

theorem charToDigitOpt_digitToChar (d : Nat) (h : d < 10) :
    charToDigitOpt (digitToChar d) = some d := by
  interval_cases d <;> decide

theorem charToDigitD_digitToChar (d : Nat) (h : d < 10) :
    charToDigitD (digitToChar d) = d := by
  simp [charToDigitD, charToDigitOpt_digitToChar d h]

theorem isDigitChar_digitToChar (d : Nat) (h : d < 10) :
    isDigitChar (digitToChar d) = true := by
  simp [isDigitChar, charToDigitOpt_digitToChar d h]

theorem toDigitsRev_zero (fuel : Nat) : toDigitsRev fuel 0 = [] := by
  cases fuel <;> simp [toDigitsRev]

theorem decNatCore_append_digit (l : JStr) (c : Char) :
    decNatCore (l ++ [c]) = 10 * decNatCore l + charToDigitD c := by
  simp [decNatCore, List.foldl_append]

theorem encNatAux_spec : ∀ fuel n, n ≤ fuel → n ≠ 0 →
    ((toDigitsRev fuel n).map digitToChar).reverse ≠ [] ∧
    (((toDigitsRev fuel n).map digitToChar).reverse).all isDigitChar = true ∧
    decNatCore (((toDigitsRev fuel n).map digitToChar).reverse) = n := by
  intro fuel
  induction fuel with
  | zero => intro n hle hne; omega
  | succ f ih =>
    intro n hle hne
    rw [toDigitsRev, if_neg hne]
    by_cases h10 : n < 10
    · have hd : n / 10 = 0 := Nat.div_eq_of_lt h10
      have hm : n % 10 = n := Nat.mod_eq_of_lt h10
      rw [hd, toDigitsRev_zero, hm]
      refine ⟨by simp, ?_, ?_⟩
      · simp [isDigitChar_digitToChar n h10]
      · simp [decNatCore, charToDigitD_digitToChar n h10]
    · have hge : 10 ≤ n := by omega
      have hdiv_ne : n / 10 ≠ 0 := by
        have := Nat.div_pos hge (by norm_num)
        omega
      have hdiv_le : n / 10 ≤ f := by
        have h2 : n / 10 < n := Nat.div_lt_self (by omega) (by norm_num)
        omega
      obtain ⟨ihne, ihall, ihval⟩ := ih (n / 10) hdiv_le hdiv_ne
      have hmod : n % 10 < 10 := by omega
      simp only [List.map_cons, List.reverse_cons]
      refine ⟨by simp, ?_, ?_⟩
      · rw [List.all_append]
        simp [ihall, isDigitChar_digitToChar (n % 10) hmod]
      · rw [decNatCore_append_digit, ihval, charToDigitD_digitToChar (n % 10) hmod]
        omega

theorem encNat_ne_nil (n : Nat) : encNat n ≠ [] := by
  by_cases h : n = 0
  · simp [encNat, h]
  · rw [encNat, if_neg h]
    exact (encNatAux_spec n n le_rfl h).1

theorem encNat_all_digits (n : Nat) : (encNat n).all isDigitChar = true := by
  by_cases h : n = 0
  · simp [encNat, h]
    rfl
  · rw [encNat, if_neg h]
    exact (encNatAux_spec n n le_rfl h).2.1

theorem decNatCore_encNat (n : Nat) : decNatCore (encNat n) = n := by
  by_cases h : n = 0
  · simp [encNat, h]
    rfl
  · rw [encNat, if_neg h]
    exact (encNatAux_spec n n le_rfl h).2.2

theorem decNat_encNat (n : Nat) : decNat (encNat n) = some n := by
  cases he : encNat n with
  | nil => exact absurd he (encNat_ne_nil n)
  | cons a l =>
    have h2 := encNat_all_digits n
    have h3 := decNatCore_encNat n
    rw [he] at h2 h3
    simp [decNat, h2, h3]

theorem not_mem_encNat (c : Char) (hc : isDigitChar c = false) (n : Nat) :
    c ∉ encNat n := by
  intro hm
  have h2 := encNat_all_digits n
  simp only [List.all_eq_true] at h2
  have := h2 c hm
  rw [hc] at this
  exact absurd this (by simp)

theorem jwtVerify_jwtSign (uid : Nat) (secret : JStr) (T t : Nat) (hs : '.' ∉ secret) :
    jwtVerify (jwtSign uid secret T) secret t =
      if t < T + sevenDays then some uid else none := by
  have hd1 : ('.' : Char) ∉ encNat uid := not_mem_encNat '.' (by decide) uid
  have hd2 : ('.' : Char) ∉ encNat (T + sevenDays) := not_mem_encNat '.' (by decide) _
  rw [jwtSign, jwtVerify, splitOnChar_append '.' _ _ hd1, splitOnChar_append '.' _ _ hd2,
      splitOnChar_of_not_mem '.' secret hs]
  simp [decNat_encNat]

theorem jwtVerify_nil (secret : JStr) (now : Nat) : jwtVerify [] secret now = none := rfl

end Bookshelf

namespace Bookshelf

theorem findById_updateBooks (store : List User) (uid : Nat) (u : User) (B : Books)
    (h : findById store uid = some u) :
    findById (updateBooks store uid B) uid = some { u with books := B } := by
  induction store with
  | nil => simp [findById] at h
  | cons v vs ih =>
    rw [findById, List.find?_cons] at h
    rw [findById, updateBooks, List.map_cons, List.find?_cons]
    by_cases hv : (v.id == uid) = true
    · simp only [hv, if_true] at h ⊢
      injection h with h
      subst h
      simp [hv]
    · have hb : (v.id == uid) = false := by
        cases hq : (v.id == uid) with
        | true => exact absurd hq hv
        | false => rfl
      simp only [hb, Bool.false_eq_true, if_false] at h ⊢
      exact ih h

set_option maxHeartbeats 1000000 in
theorem castEntry_entryJson (e : BookEntry) : castEntry (entryJson e) = some e := by
  obtain ⟨t, a, g, p, cp, no, pr, co, d⟩ := e
  cases t <;> cases a <;> cases g <;> cases p <;> cases cp <;> cases no <;>
    cases pr <;> cases co <;> cases d <;> rfl

theorem castEntries_map_entryJson (es : List BookEntry) :
    castEntries (es.map entryJson) = some es := by
  induction es with
  | nil => rfl
  | cons e es ih => simp [castEntries, castEntry_entryJson, ih]

theorem castBooks_booksJson (B : Books) : castBooks (booksJson B) = some B := by
  obtain ⟨r, u, w⟩ := B
  simp [castBooks, booksJson, castArrField, lookupField, List.find?, castEntryList,
    castEntries_map_entryJson]

theorem putBooks_casts (store : List User) (uid : Nat) (b : JVal) (B : Books)
    (hb : castBooks b = some B) :
    putBooks store uid (some b) =
      (⟨200, .obj [("message", .s (js "Books updated successfully"))]⟩,
       updateBooks store uid B) := by
  cases b with
  | s v => simp [castBooks] at hb
  | n v => simp [castBooks] at hb
  | arr xs => simp [castBooks] at hb
  | obj fs => simp [putBooks, hb]

theorem pwFree_errJ (msg : String) : pwFree (errJ msg) = true := by
  simp [errJ, pwFree]

theorem pwFree_pubUserJson (u : User) : pwFree (pubUserJson u) = true := by
  simp [pubUserJson, pwFree]

theorem pwFree_obj_append (l1 l2 : List (String × JVal)) :
    pwFree (.obj (l1 ++ l2)) = (pwFree (.obj l1) && pwFree (.obj l2)) := by
  induction l1 with
  | nil => simp [pwFree]
  | cons f fs ih =>
    obtain ⟨k, v⟩ := f
    simp [pwFree, ih, Bool.and_assoc]

theorem pwFree_optField_s (k : String) (hk : (k != "password") = true) (o : Option JStr) :
    pwFree (.obj (optField k (o.map JVal.s))) = true := by
  cases o <;> simp [optField, pwFree, hk]

theorem pwFree_optField_n (k : String) (hk : (k != "password") = true) (o : Option Nat) :
    pwFree (.obj (optField k (o.map JVal.n))) = true := by
  cases o <;> simp [optField, pwFree, hk]

theorem pwFree_entryJson (e : BookEntry) : pwFree (entryJson e) = true := by
  simp [entryJson, pwFree_obj_append, pwFree_optField_s, pwFree_optField_n]

theorem pwFree_arr_map_entryJson (es : List BookEntry) :
    pwFree (.arr (es.map entryJson)) = true := by
  induction es with
  | nil => simp [pwFree]
  | cons e es ih => simp [pwFree, pwFree_entryJson, ih]

theorem pwFree_booksJson (B : Books) : pwFree (booksJson B) = true := by
  simp [booksJson, pwFree, pwFree_arr_map_entryJson]

theorem threeSeqs_booksJson (B : Books) : threeSeqs (booksJson B) = true := by
  simp [booksJson, threeSeqs]

end Bookshelf

namespace Bookshelf

theorem registerInsert_spec (s : List User) (un em pw : JStr) (salt newId : Nat)
    (secret : JStr) (now : Nat) :
    (s.any (fun v => v.username == (newUserOf un em pw salt newId).username) = true ∧
      registerInsert s un em pw salt newId secret now =
        (⟨400, errJ "username already exists"⟩, s)) ∨
    (s.any (fun v => v.username == (newUserOf un em pw salt newId).username) = false ∧
      s.any (fun v => v.email == (newUserOf un em pw salt newId).email) = true ∧
      registerInsert s un em pw salt newId secret now =
        (⟨400, errJ "email already exists"⟩, s)) ∨
    (s.any (fun v => v.username == (newUserOf un em pw salt newId).username) = false ∧
      s.any (fun v => v.email == (newUserOf un em pw salt newId).email) = false ∧
      registerInsert s un em pw salt newId secret now =
        (⟨201, .obj [("message", .s (js "User created successfully")),
                     ("token", .s (jwtSign newId secret now)),
                     ("user", pubUserJson (newUserOf un em pw salt newId))]⟩,
         s ++ [newUserOf un em pw salt newId])) := by
  by_cases h1 : s.any (fun v => v.username == (newUserOf un em pw salt newId).username) = true
  · left
    exact ⟨h1, by simp [registerInsert, insertUser, h1]⟩
  · rw [Bool.not_eq_true] at h1
    by_cases h2 : s.any (fun v => v.email == (newUserOf un em pw salt newId).email) = true
    · right; left
      exact ⟨h1, h2, by simp [registerInsert, insertUser, h1, h2]⟩
    · rw [Bool.not_eq_true] at h2
      right; right
      exact ⟨h1, h2, by simp [registerInsert, insertUser, h1, h2]⟩

theorem register_passes_validation
    (checkStore insertStore : List User) (username email password : Option JStr)
    (salt newId : Nat) (secret : JStr) (now : Nat)
    (H0 : (falsy username || falsy email || falsy password) = false)
    (H2 : ¬ (username.getD []).length < 3)
    (H3 : isValidEmail (email.getD []) = true)
    (H4 : ¬ (password.getD []).length < 6) :
    register checkStore insertStore username email password salt newId secret now =
      match findPre checkStore (email.getD []) (username.getD []) with
      | some w =>
        if w.email == email.getD [] then (⟨400, errJ "Email already exists"⟩, insertStore)
        else if w.username == username.getD [] then
          (⟨400, errJ "Username already exists"⟩, insertStore)
        else registerInsert insertStore (username.getD []) (email.getD [])
          (password.getD []) salt newId secret now
      | none => registerInsert insertStore (username.getD []) (email.getD [])
          (password.getD []) salt newId secret now := by
  simp only [register, H0, Bool.false_eq_true, if_false, H3, Bool.not_true,
    if_neg H2, if_neg H4]

theorem findPre_exists (store : List User) (em un : JStr) (u : User)
    (hmem : u ∈ store) (hp : (u.email == qEmail em || u.username == qUser un) = true) :
    ∃ w, findPre store em un = some w := by
  cases hf : findPre store em un with
  | some w => exact ⟨w, rfl⟩
  | none =>
    rw [findPre, List.find?_eq_none] at hf
    exact absurd hp (by simpa using hf u hmem)

theorem register_after_validation_cases
    (checkStore insertStore : List User) (username email password : Option JStr)
    (salt newId : Nat) (secret : JStr) (now : Nat)
    (H0 : (falsy username || falsy email || falsy password) = false)
    (H2 : ¬ (username.getD []).length < 3)
    (H3 : isValidEmail (email.getD []) = true)
    (H4 : ¬ (password.getD []).length < 6) :
    (register checkStore insertStore username email password salt newId secret now =
        (⟨400, errJ "Email already exists"⟩, insertStore) ∧
      ∃ w, findPre checkStore (email.getD []) (username.getD []) = some w ∧
        (w.email == email.getD []) = true) ∨
    (register checkStore insertStore username email password salt newId secret now =
        (⟨400, errJ "Username already exists"⟩, insertStore) ∧
      ∃ w, findPre checkStore (email.getD []) (username.getD []) = some w ∧
        (w.email == email.getD []) = false ∧ (w.username == username.getD []) = true) ∨
    ((∀ w, findPre checkStore (email.getD []) (username.getD []) = some w →
        (w.email == email.getD []) = false ∧ (w.username == username.getD []) = false) ∧
      register checkStore insertStore username email password salt newId secret now =
        registerInsert insertStore (username.getD []) (email.getD [])
          (password.getD []) salt newId secret now) := by
  rw [register_passes_validation checkStore insertStore username email password
    salt newId secret now H0 H2 H3 H4]
  cases hf : findPre checkStore (email.getD []) (username.getD []) with
  | some w =>
    by_cases hw1 : (w.email == email.getD []) = true
    · left
      exact ⟨by simp [hw1], w, rfl, hw1⟩
    · rw [Bool.not_eq_true] at hw1
      by_cases hw2 : (w.username == username.getD []) = true
      · right; left
        exact ⟨by simp [hw1, hw2], w, rfl, hw1, hw2⟩
      · rw [Bool.not_eq_true] at hw2
        right; right
        refine ⟨?_, by simp [hw1, hw2]⟩
        intro w' hw'
        injection hw' with hw'
        subst hw'
        exact ⟨hw1, hw2⟩
  | none =>
    right; right
    exact ⟨fun w' hw' => by simp at hw', rfl⟩

theorem register_201_store
    (checkStore insertStore : List User) (username email password : Option JStr)
    (salt newId : Nat) (secret : JStr) (now : Nat)
    (h : (register checkStore insertStore username email password
            salt newId secret now).1.status = 201) :
    (register checkStore insertStore username email password salt newId secret now).2 =
      insertStore ++
        [newUserOf (username.getD []) (email.getD []) (password.getD []) salt newId] := by
  by_cases H0 : (falsy username || falsy email || falsy password) = true
  · simp [register, H0] at h
  · rw [Bool.not_eq_true] at H0
    by_cases H2 : (username.getD []).length < 3
    · simp [register, H0, H2] at h
    · by_cases H3 : isValidEmail (email.getD []) = true
      · by_cases H4 : (password.getD []).length < 6
        · simp [register, H0, H2, H3, H4] at h
        · rcases register_after_validation_cases checkStore insertStore username email
            password salt newId secret now H0 H2 H3 H4 with ⟨he, _⟩ | ⟨he, _⟩ | ⟨_, he⟩
          · rw [he] at h; simp at h
          · rw [he] at h; simp at h
          · rw [he] at h ⊢
            rcases registerInsert_spec insertStore (username.getD []) (email.getD [])
              (password.getD []) salt newId secret now with
              ⟨_, hi⟩ | ⟨_, _, hi⟩ | ⟨_, _, hi⟩
            · rw [hi] at h; simp at h
            · rw [hi] at h; simp at h
            · rw [hi]
      · have H3f : isValidEmail (email.getD []) = false := by
          rw [← Bool.not_eq_true]; exact H3
        simp [register, H0, H2, H3f] at h

end Bookshelf

namespace Bookshelf

/-- Claim C1: for every inbound request to a protected endpoint, the
auth gate is a four-case function of the `Authorization` header and the
user store: no token extracted from the header rejects with 401; a
token that fails verification (malformed, wrong signature, or expired)
rejects with 403; a verified token whose embedded user id resolves to
no stored user rejects with 403; and a verified token resolving to a
user admits the request with that resolved user attached. -/
theorem authGate_four_cases (store : List User) (secret : JStr) (now : Nat)
    (ah : Option JStr) :
    (tokenOf ah = none →
      authenticateToken store secret now ah = .reject 401 (errJ "Access token required")) ∧
    (∀ t, tokenOf ah = some t → jwtVerify t secret now = none →
      authenticateToken store secret now ah =
        .reject 403 (errJ "Invalid or expired token")) ∧
    (∀ t uid, tokenOf ah = some t → jwtVerify t secret now = some uid →
      findById store uid = none →
      authenticateToken store secret now ah = .reject 403 (errJ "User not found")) ∧
    (∀ t uid u, tokenOf ah = some t → jwtVerify t secret now = some uid →
      findById store uid = some u →
      authenticateToken store secret now ah = .allow u) := by
  refine ⟨?_, ?_, ?_, ?_⟩
  · intro h
    simp [authenticateToken, h]
  · intro t h1 h2
    simp [authenticateToken, h1, h2]
  · intro t uid h1 h2 h3
    simp [authenticateToken, h1, h2, h3]
  · intro t uid u h1 h2 h3
    simp [authenticateToken, h1, h2, h3]

/-- Witness for C1: the four gate cases at concrete inputs. -/
theorem authGate_four_cases_witness :
    authenticateToken demoStore demoSecret 0 none =
      .reject 401 (errJ "Access token required") ∧
    authenticateToken demoStore demoSecret 0 (some (js "Bearer garbage")) =
      .reject 403 (errJ "Invalid or expired token") ∧
    authenticateToken demoStore demoSecret 0
        (some (js "Bearer " ++ jwtSign 2 demoSecret 0)) =
      .reject 403 (errJ "User not found") ∧
    authenticateToken demoStore demoSecret 0
        (some (js "Bearer " ++ jwtSign 1 demoSecret 0)) = .allow demoUser :=
  ⟨(authGate_four_cases demoStore demoSecret 0 none).1 rfl,
   (authGate_four_cases demoStore demoSecret 0 (some (js "Bearer garbage"))).2.1
     (js "garbage") rfl rfl,
   (authGate_four_cases demoStore demoSecret 0
       (some (js "Bearer " ++ jwtSign 2 demoSecret 0))).2.2.1
     (jwtSign 2 demoSecret 0) 2 rfl rfl rfl,
   (authGate_four_cases demoStore demoSecret 0
       (some (js "Bearer " ++ jwtSign 1 demoSecret 0))).2.2.2
     (jwtSign 1 demoSecret 0) 1 demoUser rfl rfl rfl⟩

/-- Claim C2: for login attempts with both fields present, an unknown
identifier and a known identifier with a failing password produce the
same response: status 400 with the body `{ error: "Invalid credentials" }`,
revealing nothing about which part was wrong. -/
theorem login_indistinguishable (store : List User) (id1 pw1 id2 pw2 : JStr)
    (secret : JStr) (now : Nat) (u : User)
    (h1 : id1.isEmpty = false) (h2 : pw1.isEmpty = false)
    (h3 : id2.isEmpty = false) (h4 : pw2.isEmpty = false)
    (hnf : findLogin store id1 = none)
    (hfu : findLogin store id2 = some u)
    (hbc : bcryptCompare pw2 u.password = false) :
    login store (some id1) (some pw1) secret now = ⟨400, errJ "Invalid credentials"⟩ ∧
    login store (some id2) (some pw2) secret now = ⟨400, errJ "Invalid credentials"⟩ ∧
    login store (some id1) (some pw1) secret now =
      login store (some id2) (some pw2) secret now := by
  have e1 : login store (some id1) (some pw1) secret now =
      ⟨400, errJ "Invalid credentials"⟩ := by
    simp [login, falsy, h1, h2, hnf]
  have e2 : login store (some id2) (some pw2) secret now =
      ⟨400, errJ "Invalid credentials"⟩ := by
    simp [login, falsy, h3, h4, hfu, hbc]
  exact ⟨e1, e2, e1.trans e2.symm⟩

/-- Witness for C2: an unknown identifier and a wrong password for a
stored user get identical responses. -/
theorem login_indistinguishable_witness :
    login demoStore (some (js "bob")) (some (js "secret1")) demoSecret 0 =
      ⟨400, errJ "Invalid credentials"⟩ ∧
    login demoStore (some (js "alice")) (some (js "wrong1")) demoSecret 0 =
      ⟨400, errJ "Invalid credentials"⟩ ∧
    login demoStore (some (js "bob")) (some (js "secret1")) demoSecret 0 =
      login demoStore (some (js "alice")) (some (js "wrong1")) demoSecret 0 :=
  login_indistinguishable demoStore (js "bob") (js "secret1") (js "alice") (js "wrong1")
    demoSecret 0 demoUser rfl rfl rfl rfl rfl rfl rfl

/-- Claim C3: a token issued at time T verifies at every instant of the
7-day lifetime (in particular at T + 6 days) and fails from T + 7 days
on (in particular at T + 8 days). -/
theorem token_lifetime_seven_days (uid : Nat) (secret : JStr) (T t : Nat)
    (hs : '.' ∉ secret) :
    (t < T + sevenDays → jwtVerify (jwtSign uid secret T) secret t = some uid) ∧
    (T + sevenDays ≤ t → jwtVerify (jwtSign uid secret T) secret t = none) := by
  rw [jwtVerify_jwtSign uid secret T t hs]
  constructor
  · intro h
    rw [if_pos h]
  · intro h
    rw [if_neg (by omega)]

/-- Witness for C3: a token issued at time 0 verifies at 6 days and
fails at 8 days. -/
theorem token_lifetime_seven_days_witness :
    jwtVerify (jwtSign 1 demoSecret 0) demoSecret 518400 = some 1 ∧
    jwtVerify (jwtSign 1 demoSecret 0) demoSecret 691200 = none :=
  ⟨(token_lifetime_seven_days 1 demoSecret 0 518400 (by decide)).1 (by decide),
   (token_lifetime_seven_days 1 demoSecret 0 691200 (by decide)).2 (by decide)⟩

/-- Claim C10: the gate never checks the authorization scheme name: the
token is the second space-separated segment of the header, so for a
valid token t any header `<word> t` is admitted exactly like
`Bearer t`, and a header with no space (hence no second segment) is
rejected with 401 as if no token were present. -/
theorem authGate_ignores_scheme (store : List User) (secret : JStr) (now : Nat)
    (t w : JStr) (uid : Nat) (u : User)
    (hv : jwtVerify t secret now = some uid)
    (hu : findById store uid = some u)
    (ht : ' ' ∉ t) (hw : ' ' ∉ w) :
    authenticateToken store secret now (some (w ++ ' ' :: t)) = .allow u ∧
    (∀ h : JStr, ' ' ∉ h →
      authenticateToken store secret now (some h) =
        .reject 401 (errJ "Access token required")) := by
  constructor
  · have htne : t ≠ [] := by
      intro he
      rw [he, jwtVerify_nil] at hv
      exact Option.noConfusion hv
    have hti : t.isEmpty = false := by
      cases t with
      | nil => exact absurd rfl htne
      | cons a l => rfl
    have hne : (w ++ ' ' :: t).isEmpty = false := by
      cases w <;> rfl
    have hz : tokenOf (some (w ++ ' ' :: t)) = some t := by
      simp [tokenOf, hne, splitOnChar_append ' ' w t hw,
        splitOnChar_of_not_mem ' ' t ht, hti, htne]
    simp [authenticateToken, hz, hv, hu]
  · intro h hh
    have hz : tokenOf (some h) = none := by
      by_cases he : h = []
      · subst he
        rfl
      · have hne : h.isEmpty = false := by
          cases h with
          | nil => exact absurd rfl he
          | cons a l => rfl
        simp [tokenOf, hne, splitOnChar_of_not_mem ' ' h hh]
    simp [authenticateToken, hz]

/-- Witness for C10: a `Basic`-scheme header with a valid token is
admitted, and a spaceless header is rejected with 401. -/
theorem authGate_ignores_scheme_witness :
    authenticateToken demoStore demoSecret 0
        (some (js "Basic" ++ ' ' :: jwtSign 1 demoSecret 0)) = .allow demoUser ∧
    authenticateToken demoStore demoSecret 0 (some (jwtSign 1 demoSecret 0)) =
      .reject 401 (errJ "Access token required") :=
  ⟨(authGate_ignores_scheme demoStore demoSecret 0 (jwtSign 1 demoSecret 0)
      (js "Basic") 1 demoUser (by decide) (by decide) (by decide) (by decide)).1,
   (authGate_ignores_scheme demoStore demoSecret 0 (jwtSign 1 demoSecret 0)
      (js "Basic") 1 demoUser (by decide) (by decide) (by decide) (by decide)).2
     (jwtSign 1 demoSecret 0) (by decide)⟩

end Bookshelf

namespace Bookshelf

/-- Claim C4: registration validation applies its checks in a fixed
order — presence of all three fields, username length at least 3, email
shape, password length at least 6 — the first failing check determining
the 400 response with its own distinct message; only inputs passing all
four reach the uniqueness check and insertion (whose outcomes are the
duplicate 400s or the 201 creation). -/
theorem register_validation_order
    (checkStore insertStore : List User) (username email password : Option JStr)
    (salt newId : Nat) (secret : JStr) (now : Nat) :
    ((falsy username || falsy email || falsy password) = true →
      register checkStore insertStore username email password salt newId secret now =
        (⟨400, errJ "All fields are required"⟩, insertStore)) ∧
    ((falsy username || falsy email || falsy password) = false →
      (username.getD []).length < 3 →
      register checkStore insertStore username email password salt newId secret now =
        (⟨400, errJ "Username must be at least 3 characters"⟩, insertStore)) ∧
    ((falsy username || falsy email || falsy password) = false →
      ¬ (username.getD []).length < 3 →
      isValidEmail (email.getD []) = false →
      register checkStore insertStore username email password salt newId secret now =
        (⟨400, errJ "Please enter a valid email address"⟩, insertStore)) ∧
    ((falsy username || falsy email || falsy password) = false →
      ¬ (username.getD []).length < 3 →
      isValidEmail (email.getD []) = true →
      (password.getD []).length < 6 →
      register checkStore insertStore username email password salt newId secret now =
        (⟨400, errJ "Password must be at least 6 characters"⟩, insertStore)) ∧
    ((falsy username || falsy email || falsy password) = false →
      ¬ (username.getD []).length < 3 →
      isValidEmail (email.getD []) = true →
      ¬ (password.getD []).length < 6 →
      ((register checkStore insertStore username email password salt newId secret now).1 ∈
          ([⟨400, errJ "Email already exists"⟩,
            ⟨400, errJ "Username already exists"⟩,
            ⟨400, errJ "username already exists"⟩,
            ⟨400, errJ "email already exists"⟩] : List Response) ∨
        (register checkStore insertStore username email password
          salt newId secret now).1.status = 201)) ∧
    List.Pairwise (fun a b => a ≠ b)
      ["All fields are required", "Username must be at least 3 characters",
       "Please enter a valid email address", "Password must be at least 6 characters"] := by
  refine ⟨?_, ?_, ?_, ?_, ?_, by decide⟩
  · intro h0
    simp [register, h0]
  · intro h0 h2
    simp [register, h0, h2]
  · intro h0 h2 h3
    simp [register, h0, h2, h3]
  · intro h0 h2 h3 h4
    simp [register, h0, h2, h3, h4]
  · intro h0 h2 h3 h4
    rcases register_after_validation_cases checkStore insertStore username email password
      salt newId secret now h0 h2 h3 h4 with ⟨he, _⟩ | ⟨he, _⟩ | ⟨_, he⟩
    · left
      rw [he]
      simp
    · left
      rw [he]
      simp
    · rw [he]
      rcases registerInsert_spec insertStore (username.getD []) (email.getD [])
        (password.getD []) salt newId secret now with
        ⟨_, hi⟩ | ⟨_, _, hi⟩ | ⟨_, _, hi⟩
      · left
        rw [hi]
        simp
      · left
        rw [hi]
        simp
      · right
        rw [hi]

/-- Witness for C4: each validation stage at a concrete input. -/
theorem register_validation_order_witness :
    register [] [] none (some (js "a@b.co")) (some (js "secret1")) 0 1 demoSecret 0 =
      (⟨400, errJ "All fields are required"⟩, []) ∧
    register [] [] (some (js "ab")) (some (js "a@b.co")) (some (js "secret1"))
        0 1 demoSecret 0 =
      (⟨400, errJ "Username must be at least 3 characters"⟩, []) ∧
    register [] [] (some (js "bob")) (some (js "bad")) (some (js "secret1"))
        0 1 demoSecret 0 =
      (⟨400, errJ "Please enter a valid email address"⟩, []) ∧
    register [] [] (some (js "bob")) (some (js "a@b.co")) (some (js "abc"))
        0 1 demoSecret 0 =
      (⟨400, errJ "Password must be at least 6 characters"⟩, []) ∧
    ((register [] [] (some (js "bob")) (some (js "a@b.co")) (some (js "secret1"))
        0 1 demoSecret 0).1 ∈
        ([⟨400, errJ "Email already exists"⟩,
          ⟨400, errJ "Username already exists"⟩,
          ⟨400, errJ "username already exists"⟩,
          ⟨400, errJ "email already exists"⟩] : List Response) ∨
      (register [] [] (some (js "bob")) (some (js "a@b.co")) (some (js "secret1"))
        0 1 demoSecret 0).1.status = 201) :=
  ⟨(register_validation_order [] [] none (some (js "a@b.co")) (some (js "secret1"))
      0 1 demoSecret 0).1 rfl,
   (register_validation_order [] [] (some (js "ab")) (some (js "a@b.co"))
      (some (js "secret1")) 0 1 demoSecret 0).2.1 rfl (by decide),
   (register_validation_order [] [] (some (js "bob")) (some (js "bad"))
      (some (js "secret1")) 0 1 demoSecret 0).2.2.1 rfl (by decide) rfl,
   (register_validation_order [] [] (some (js "bob")) (some (js "a@b.co"))
      (some (js "abc")) 0 1 demoSecret 0).2.2.2.1 rfl (by decide) rfl (by decide),
   (register_validation_order [] [] (some (js "bob")) (some (js "a@b.co"))
      (some (js "secret1")) 0 1 demoSecret 0).2.2.2.2.1 rfl (by decide) rfl (by decide)⟩

end Bookshelf

namespace Bookshelf

/-- Claim C5: for valid registration input colliding with existing
users, the response is a 400 naming the colliding field: the pre-check
reports the found record's email collision with priority over its
username collision; and a collision the pre-check misses that surfaces
as a store-level uniqueness violation at insert (the race case, modeled
by an `insertStore` that differs from `checkStore`) is translated into
the same field-naming "already exists" 400 rather than a generic 500. -/
theorem register_duplicate_field_reporting
    (checkStore insertStore : List User) (username email password : Option JStr)
    (salt newId : Nat) (secret : JStr) (now : Nat)
    (H0 : (falsy username || falsy email || falsy password) = false)
    (H2 : ¬ (username.getD []).length < 3)
    (H3 : isValidEmail (email.getD []) = true)
    (H4 : ¬ (password.getD []).length < 6) :
    (∀ w, findPre checkStore (email.getD []) (username.getD []) = some w →
      (w.email == email.getD []) = true →
      register checkStore insertStore username email password salt newId secret now =
        (⟨400, errJ "Email already exists"⟩, insertStore)) ∧
    (∀ w, findPre checkStore (email.getD []) (username.getD []) = some w →
      (w.email == email.getD []) = false →
      (w.username == username.getD []) = true →
      register checkStore insertStore username email password salt newId secret now =
        (⟨400, errJ "Username already exists"⟩, insertStore)) ∧
    ((∀ w, findPre checkStore (email.getD []) (username.getD []) = some w →
        (w.email == email.getD []) = false ∧ (w.username == username.getD []) = false) →
      insertStore.any (fun v => v.username ==
        (newUserOf (username.getD []) (email.getD []) (password.getD [])
          salt newId).username) = true →
      register checkStore insertStore username email password salt newId secret now =
        (⟨400, errJ "username already exists"⟩, insertStore)) ∧
    ((∀ w, findPre checkStore (email.getD []) (username.getD []) = some w →
        (w.email == email.getD []) = false ∧ (w.username == username.getD []) = false) →
      insertStore.any (fun v => v.username ==
        (newUserOf (username.getD []) (email.getD []) (password.getD [])
          salt newId).username) = false →
      insertStore.any (fun v => v.email ==
        (newUserOf (username.getD []) (email.getD []) (password.getD [])
          salt newId).email) = true →
      register checkStore insertStore username email password salt newId secret now =
        (⟨400, errJ "email already exists"⟩, insertStore)) := by
  refine ⟨?_, ?_, ?_, ?_⟩
  · intro w hw hb
    rw [register_passes_validation checkStore insertStore username email password
      salt newId secret now H0 H2 H3 H4, hw]
    simp [hb]
  · intro w hw hb1 hb2
    rw [register_passes_validation checkStore insertStore username email password
      salt newId secret now H0 H2 H3 H4, hw]
    simp [hb1, hb2]
  · intro hpre hun
    rw [register_passes_validation checkStore insertStore username email password
      salt newId secret now H0 H2 H3 H4]
    have hreg : ∀ z : Response × List User,
        z = registerInsert insertStore (username.getD []) (email.getD [])
          (password.getD []) salt newId secret now →
        z = (⟨400, errJ "username already exists"⟩, insertStore) := by
      intro z hz
      rcases registerInsert_spec insertStore (username.getD []) (email.getD [])
        (password.getD []) salt newId secret now with
        ⟨_, hi⟩ | ⟨ha, _, _⟩ | ⟨ha, _, _⟩
      · rw [hz, hi]
      · rw [hun] at ha
        exact absurd ha (by simp)
      · rw [hun] at ha
        exact absurd ha (by simp)
    cases hf : findPre checkStore (email.getD []) (username.getD []) with
    | some w =>
      obtain ⟨e1, e2⟩ := hpre w hf
      simp only [e1, e2, Bool.false_eq_true, if_false]
      exact hreg _ rfl
    | none =>
      exact hreg _ rfl
  · intro hpre hun hem
    rw [register_passes_validation checkStore insertStore username email password
      salt newId secret now H0 H2 H3 H4]
    have hreg : ∀ z : Response × List User,
        z = registerInsert insertStore (username.getD []) (email.getD [])
          (password.getD []) salt newId secret now →
        z = (⟨400, errJ "email already exists"⟩, insertStore) := by
      intro z hz
      rcases registerInsert_spec insertStore (username.getD []) (email.getD [])
        (password.getD []) salt newId secret now with
        ⟨ha, _⟩ | ⟨_, _, hi⟩ | ⟨_, hb, _⟩
      · rw [hun] at ha
        exact absurd ha (by simp)
      · rw [hz, hi]
      · rw [hem] at hb
        exact absurd hb (by simp)
    cases hf : findPre checkStore (email.getD []) (username.getD []) with
    | some w =>
      obtain ⟨e1, e2⟩ := hpre w hf
      simp only [e1, e2, Bool.false_eq_true, if_false]
      exact hreg _ rfl
    | none =>
      exact hreg _ rfl

/-- Witness for C5: the four duplicate-reporting cases at concrete
stores; the last two use an insert-time store the pre-check never saw
(the race). -/
theorem register_duplicate_field_reporting_witness :
    register [demoUser] [] (some (js "bob")) (some (js "alice@example.com"))
        (some (js "secret1")) 0 2 demoSecret 0 =
      (⟨400, errJ "Email already exists"⟩, []) ∧
    register [demoUser] [] (some (js "alice")) (some (js "bob@example.com"))
        (some (js "secret1")) 0 2 demoSecret 0 =
      (⟨400, errJ "Username already exists"⟩, []) ∧
    register [] [demoUser] (some (js "alice")) (some (js "bob@example.com"))
        (some (js "secret1")) 0 2 demoSecret 0 =
      (⟨400, errJ "username already exists"⟩, [demoUser]) ∧
    register [] [demoUser] (some (js "bobby")) (some (js "Alice@Example.com"))
        (some (js "secret1")) 0 2 demoSecret 0 =
      (⟨400, errJ "email already exists"⟩, [demoUser]) :=
  ⟨(register_duplicate_field_reporting [demoUser] [] (some (js "bob"))
      (some (js "alice@example.com")) (some (js "secret1")) 0 2 demoSecret 0
      rfl (by decide) rfl (by decide)).1 demoUser rfl rfl,
   (register_duplicate_field_reporting [demoUser] [] (some (js "alice"))
      (some (js "bob@example.com")) (some (js "secret1")) 0 2 demoSecret 0
      rfl (by decide) rfl (by decide)).2.1 demoUser rfl rfl rfl,
   (register_duplicate_field_reporting [] [demoUser] (some (js "alice"))
      (some (js "bob@example.com")) (some (js "secret1")) 0 2 demoSecret 0
      rfl (by decide) rfl (by decide)).2.2.1 (fun w hw => nomatch hw) rfl,
   (register_duplicate_field_reporting [] [demoUser] (some (js "bobby"))
      (some (js "Alice@Example.com")) (some (js "secret1")) 0 2 demoSecret 0
      rfl (by decide) rfl (by decide)).2.2.2 (fun w hw => nomatch hw) rfl rfl⟩

/-- Claim C9: email uniqueness is case-insensitive: a registration
whose email equals a stored user's email up to letter case (the stored
value being lower-cased) fails with a duplicate 400 and leaves the
store unchanged, the collision being caught by the pre-check or by the
store's unique index; and every successful registration stores the
email lower-cased (and trimmed). -/
theorem email_uniqueness_case_insensitive
    (store : List User) (username email password : Option JStr)
    (salt newId : Nat) (secret : JStr) (now : Nat) (u : User)
    (hmem : u ∈ store)
    (hemail : u.email = lowerJ (trimJ (email.getD [])))
    (H0 : (falsy username || falsy email || falsy password) = false)
    (H2 : ¬ (username.getD []).length < 3)
    (H3 : isValidEmail (email.getD []) = true)
    (H4 : ¬ (password.getD []).length < 6) :
    ((register store store username email password salt newId secret now).1.status = 400 ∧
      (register store store username email password salt newId secret now).2 = store ∧
      (register store store username email password salt newId secret now).1.body ∈
        [errJ "Email already exists", errJ "Username already exists",
         errJ "username already exists", errJ "email already exists"]) ∧
    (∀ (cs is : List User) (r : Response) (s2 : List User),
      register cs is username email password salt newId secret now = (r, s2) →
      r.status = 201 →
      ∃ nu : User, s2 = is ++ [nu] ∧
        nu.email = lowerJ (trimJ (email.getD []))) := by
  constructor
  · rcases register_after_validation_cases store store username email password
      salt newId secret now H0 H2 H3 H4 with ⟨he, _⟩ | ⟨he, _⟩ | ⟨_, he⟩
    · rw [he]
      exact ⟨rfl, rfl, by simp⟩
    · rw [he]
      exact ⟨rfl, rfl, by simp⟩
    · rw [he]
      rcases registerInsert_spec store (username.getD []) (email.getD [])
        (password.getD []) salt newId secret now with
        ⟨_, hi⟩ | ⟨_, _, hi⟩ | ⟨_, hb, _⟩
      · rw [hi]
        exact ⟨rfl, rfl, by simp⟩
      · rw [hi]
        exact ⟨rfl, rfl, by simp⟩
      · have hany : store.any (fun v => v.email ==
            (newUserOf (username.getD []) (email.getD []) (password.getD [])
              salt newId).email) = true := by
          rw [List.any_eq_true]
          refine ⟨u, hmem, ?_⟩
          rw [hemail]
          simp [newUserOf]
        rw [hany] at hb
        exact absurd hb (by simp)
  · intro cs is r s2 heq h201
    have hs : (register cs is username email password salt newId secret now).1.status
        = 201 := by
      rw [heq]
      exact h201
    have h2 : (register cs is username email password salt newId secret now).2 = s2 := by
      rw [heq]
    refine ⟨newUserOf (username.getD []) (email.getD []) (password.getD []) salt newId,
      ?_, rfl⟩
    rw [← h2]
    exact register_201_store cs is username email password salt newId secret now hs

/-- Witness for C9: registering `Alice@Example.com` against a store
holding `alice@example.com` is rejected with a duplicate 400 and does
not create a second account; a fresh registration stores the
lower-cased email. -/
theorem email_uniqueness_case_insensitive_witness :
    ((register [demoUser] [demoUser] (some (js "bob")) (some (js "Alice@Example.com"))
        (some (js "secret1")) 0 2 demoSecret 0).1.status = 400 ∧
      (register [demoUser] [demoUser] (some (js "bob")) (some (js "Alice@Example.com"))
        (some (js "secret1")) 0 2 demoSecret 0).2 = [demoUser] ∧
      (register [demoUser] [demoUser] (some (js "bob")) (some (js "Alice@Example.com"))
        (some (js "secret1")) 0 2 demoSecret 0).1.body ∈
        [errJ "Email already exists", errJ "Username already exists",
         errJ "username already exists", errJ "email already exists"]) ∧
    (∃ nu : User,
      (register [] [] (some (js "bob")) (some (js "Alice@Example.com"))
        (some (js "secret1")) 0 2 demoSecret 0).2 = [] ++ [nu] ∧
      nu.email = lowerJ (trimJ (js "Alice@Example.com"))) :=
  ⟨(email_uniqueness_case_insensitive [demoUser] (some (js "bob"))
      (some (js "Alice@Example.com")) (some (js "secret1")) 0 2 demoSecret 0 demoUser
      (by decide) (by decide) rfl (by decide) rfl (by decide)).1,
   (email_uniqueness_case_insensitive [demoUser] (some (js "bob"))
      (some (js "Alice@Example.com")) (some (js "secret1")) 0 2 demoSecret 0 demoUser
      (by decide) (by decide) rfl (by decide) rfl (by decide)).2 [] [] _ _ rfl rfl⟩

end Bookshelf

namespace Bookshelf

/-- Claim C6: every reachable persisted user has a books structure of
exactly the three named sequences: its JSON serialization always has
exactly the keys `read`, `unread`, `wishlist`; registration creates the
user with all three present and empty; and `PUT /api/books` either
leaves the store unchanged or replaces the user's collection with a
cast `Books` value, which again has exactly the three sequences. -/
theorem books_three_sequences_invariant :
    (∀ B : Books, threeSeqs (booksJson B) = true) ∧
    (∀ (cs is : List User) (username email password : Option JStr)
        (salt newId : Nat) (secret : JStr) (now : Nat) (r : Response) (s2 : List User),
      register cs is username email password salt newId secret now = (r, s2) →
      r.status = 201 →
      ∃ nu : User, s2 = is ++ [nu] ∧ nu.books = ⟨[], [], []⟩) ∧
    (∀ (store : List User) (uid : Nat) (body : Option JVal) (r : Response)
        (s2 : List User),
      putBooks store uid body = (r, s2) →
      s2 = store ∨ ∃ B : Books, s2 = updateBooks store uid B) := by
  refine ⟨threeSeqs_booksJson, ?_, ?_⟩
  · intro cs is username email password salt newId secret now r s2 heq h201
    have hs : (register cs is username email password salt newId secret now).1.status
        = 201 := by
      rw [heq]
      exact h201
    have h2 : (register cs is username email password salt newId secret now).2 = s2 := by
      rw [heq]
    refine ⟨newUserOf (username.getD []) (email.getD []) (password.getD []) salt newId,
      ?_, rfl⟩
    rw [← h2]
    exact register_201_store cs is username email password salt newId secret now hs
  · intro store uid body r s2 heq
    cases body with
    | none =>
      left
      exact (congrArg Prod.snd heq).symm
    | some b =>
      cases b with
      | s v =>
        left
        exact (congrArg Prod.snd heq).symm
      | n v =>
        left
        exact (congrArg Prod.snd heq).symm
      | arr xs =>
        left
        exact (congrArg Prod.snd heq).symm
      | obj fs =>
        cases hc : castBooks (.obj fs) with
        | none =>
          have hp : putBooks store uid (some (.obj fs)) =
              (⟨500, errJ "Error updating books"⟩, store) := by
            simp [putBooks, hc]
          rw [hp] at heq
          left
          exact (congrArg Prod.snd heq).symm
        | some B =>
          rw [putBooks_casts store uid (.obj fs) B hc] at heq
          right
          exact ⟨B, (congrArg Prod.snd heq).symm⟩

/-- Witness for C6: the serialized shape, a concrete registration
creating empty collections, and a rejected PUT leaving the store
unchanged. -/
theorem books_three_sequences_invariant_witness :
    threeSeqs (booksJson ⟨[], [], []⟩) = true ∧
    (∃ nu : User,
      (register [] [] (some (js "alice")) (some (js "alice@example.com"))
        (some (js "secret1")) 5 1 demoSecret 0).2 = [] ++ [nu] ∧
      nu.books = ⟨[], [], []⟩) ∧
    ((putBooks demoStore 1 none).2 = demoStore ∨
      ∃ B : Books, (putBooks demoStore 1 none).2 = updateBooks demoStore 1 B) :=
  ⟨books_three_sequences_invariant.1 ⟨[], [], []⟩,
   books_three_sequences_invariant.2.1 [] [] (some (js "alice"))
     (some (js "alice@example.com")) (some (js "secret1")) 5 1 demoSecret 0 _ _ rfl rfl,
   books_three_sequences_invariant.2.2 demoStore 1 none _ _ rfl⟩

/-- Claim C7: no API response ever contains the stored password hash:
every response body of register, login, verify, GET/PUT books and every
gate rejection has no `password` key anywhere (the success bodies carry
only the `{ id, username, email }` projection), and GET books returns
only the user's books structure. -/
theorem password_hash_never_in_responses :
    (∀ (cs is : List User) (username email password : Option JStr)
        (salt newId : Nat) (secret : JStr) (now : Nat),
      pwFree (register cs is username email password salt newId secret now).1.body
        = true) ∧
    (∀ (store : List User) (ue pw : Option JStr) (secret : JStr) (now : Nat),
      pwFree (login store ue pw secret now).body = true) ∧
    (∀ u : User, pwFree (verifyEndpoint u).body = true) ∧
    (∀ (store : List User) (uid : Nat),
      pwFree (getBooks store uid).body = true ∧
      (∀ u, findById store uid = some u →
        getBooks store uid = ⟨200, booksJson u.books⟩)) ∧
    (∀ (store : List User) (uid : Nat) (body : Option JVal),
      pwFree (putBooks store uid body).1.body = true) ∧
    (∀ (store : List User) (secret : JStr) (now : Nat) (ah : Option JStr)
        (st : Nat) (bd : JVal),
      authenticateToken store secret now ah = .reject st bd → pwFree bd = true) := by
  refine ⟨?_, ?_, ?_, ?_, ?_, ?_⟩
  · intro cs is username email password salt newId secret now
    by_cases H0 : (falsy username || falsy email || falsy password) = true
    · simp [register, H0, pwFree_errJ]
    · rw [Bool.not_eq_true] at H0
      by_cases H2 : (username.getD []).length < 3
      · simp [register, H0, H2, pwFree_errJ]
      · by_cases H3 : isValidEmail (email.getD []) = true
        · by_cases H4 : (password.getD []).length < 6
          · simp [register, H0, H2, H3, H4, pwFree_errJ]
          · rcases register_after_validation_cases cs is username email password
              salt newId secret now H0 H2 H3 H4 with ⟨he, _⟩ | ⟨he, _⟩ | ⟨_, he⟩
            · rw [he]
              exact pwFree_errJ _
            · rw [he]
              exact pwFree_errJ _
            · rw [he]
              rcases registerInsert_spec is (username.getD []) (email.getD [])
                (password.getD []) salt newId secret now with
                ⟨_, hi⟩ | ⟨_, _, hi⟩ | ⟨_, _, hi⟩
              · rw [hi]
                exact pwFree_errJ _
              · rw [hi]
                exact pwFree_errJ _
              · rw [hi]
                simp [pwFree, pubUserJson]
        · have H3f : isValidEmail (email.getD []) = false := by
            rw [← Bool.not_eq_true]
            exact H3
          simp [register, H0, H2, H3f, pwFree_errJ]
  · intro store ue pw secret now
    by_cases H0 : (falsy ue || falsy pw) = true
    · simp [login, H0, pwFree_errJ]
    · rw [Bool.not_eq_true] at H0
      cases hfl : findLogin store (ue.getD []) with
      | none => simp [login, H0, hfl, pwFree_errJ]
      | some u =>
        by_cases hb : bcryptCompare (pw.getD []) u.password = true
        · simp [login, H0, hfl, hb, pwFree, pubUserJson]
        · rw [Bool.not_eq_true] at hb
          simp [login, H0, hfl, hb, pwFree_errJ]
  · intro u
    simp [verifyEndpoint, pwFree, pubUserJson]
  · intro store uid
    constructor
    · cases hf : findById store uid with
      | none => simp [getBooks, hf, pwFree_errJ]
      | some u => simp [getBooks, hf, pwFree_booksJson]
    · intro u hu
      simp [getBooks, hu]
  · intro store uid body
    cases body with
    | none => simp [putBooks, pwFree_errJ]
    | some b =>
      cases b with
      | s v => simp [putBooks, pwFree_errJ]
      | n v => simp [putBooks, pwFree_errJ]
      | arr xs => simp [putBooks, castBooks, pwFree_errJ]
      | obj fs =>
        cases hc : castBooks (.obj fs) with
        | none => simp [putBooks, hc, pwFree_errJ]
        | some B => simp [putBooks, hc, pwFree]
  · intro store secret now ah st bd h
    cases ht : tokenOf ah with
    | none =>
      rw [show authenticateToken store secret now ah =
          .reject 401 (errJ "Access token required") from by
        simp [authenticateToken, ht]] at h
      injection h with h1 h2
      rw [← h2]
      exact pwFree_errJ _
    | some t =>
      cases hv : jwtVerify t secret now with
      | none =>
        rw [show authenticateToken store secret now ah =
            .reject 403 (errJ "Invalid or expired token") from by
          simp [authenticateToken, ht, hv]] at h
        injection h with h1 h2
        rw [← h2]
        exact pwFree_errJ _
      | some uid =>
        cases hu : findById store uid with
        | none =>
          rw [show authenticateToken store secret now ah =
              .reject 403 (errJ "User not found") from by
            simp [authenticateToken, ht, hv, hu]] at h
          injection h with h1 h2
          rw [← h2]
          exact pwFree_errJ _
        | some u =>
          rw [show authenticateToken store secret now ah = .allow u from by
            simp [authenticateToken, ht, hv, hu]] at h
          exact GateResult.noConfusion h

/-- Witness for C7: password-free bodies at concrete requests for every
endpoint, and the books projection of a concrete GET. -/
theorem password_hash_never_in_responses_witness :
    pwFree (register [] [] (some (js "alice")) (some (js "alice@example.com"))
      (some (js "secret1")) 5 1 demoSecret 0).1.body = true ∧
    pwFree (login demoStore (some (js "alice")) (some (js "secret1"))
      demoSecret 0).body = true ∧
    pwFree (verifyEndpoint demoUser).body = true ∧
    pwFree (getBooks demoStore 1).body = true ∧
    getBooks demoStore 1 = ⟨200, booksJson demoUser.books⟩ ∧
    pwFree (putBooks demoStore 1 (some (booksJson demoBooks))).1.body = true ∧
    pwFree (errJ "Access token required") = true :=
  ⟨password_hash_never_in_responses.1 [] [] (some (js "alice"))
     (some (js "alice@example.com")) (some (js "secret1")) 5 1 demoSecret 0,
   password_hash_never_in_responses.2.1 demoStore (some (js "alice"))
     (some (js "secret1")) demoSecret 0,
   password_hash_never_in_responses.2.2.1 demoUser,
   (password_hash_never_in_responses.2.2.2.1 demoStore 1).1,
   (password_hash_never_in_responses.2.2.2.1 demoStore 1).2 demoUser rfl,
   password_hash_never_in_responses.2.2.2.2.1 demoStore 1 (some (booksJson demoBooks)),
   password_hash_never_in_responses.2.2.2.2.2 demoStore demoSecret 0 none 401
     (errJ "Access token required") rfl⟩

/-- Claim C8: `PUT /api/books` is whole-collection replacement: for any
books collection B accepted by the PUT, the stored collection becomes
exactly B regardless of what was stored before (no merging), and a
subsequent GET by the same user returns exactly B. -/
theorem put_get_books_roundtrip (store : List User) (uid : Nat) (u : User) (B : Books)
    (h : findById store uid = some u) :
    putBooks store uid (some (booksJson B)) =
      (⟨200, .obj [("message", .s (js "Books updated successfully"))]⟩,
       updateBooks store uid B) ∧
    getBooks (updateBooks store uid B) uid = ⟨200, booksJson B⟩ := by
  refine ⟨putBooks_casts store uid (booksJson B) B (castBooks_booksJson B), ?_⟩
  simp [getBooks, findById_updateBooks store uid u B h]

/-- Witness for C8: putting a one-entry wishlist for the demo user and
reading it back returns exactly that collection. -/
theorem put_get_books_roundtrip_witness :
    putBooks demoStore 1 (some (booksJson demoBooks)) =
      (⟨200, .obj [("message", .s (js "Books updated successfully"))]⟩,
       updateBooks demoStore 1 demoBooks) ∧
    getBooks (updateBooks demoStore 1 demoBooks) 1 = ⟨200, booksJson demoBooks⟩ :=
  put_get_books_roundtrip demoStore 1 demoUser demoBooks rfl

end Bookshelf
